import Mathlib

/-!
Shallow embedding of the Versa transfer hook program
(src/programs/versa_transfer_hook/src/lib.rs).

Machine integers are modelled as `Nat` with explicit bounds: a `u64` value
is a `Nat` below `2 ^ 64`, a `u128` intermediate is a `Nat` below `2 ^ 128`.
Rust's `saturating_add` on `u64` becomes `satAdd64`, `checked_mul` on `u128`
becomes `checked_mul128` (returning `none` on overflow, which in the source
would make the subsequent `unwrap` panic), the `as u64` narrowing cast
becomes `as_u64` (truncation modulo `2 ^ 64`), and `saturating_sub` on `u64`
is `Nat` subtraction, which already truncates at zero.
-/

/-- Fee tier threshold 1 (`TIER_1_THRESHOLD`): 0.1 token at 9 decimals. -/
def TIER_1_THRESHOLD : Nat := 100000000

/-- Fee tier threshold 2 (`TIER_2_THRESHOLD`): 1 token. -/
def TIER_2_THRESHOLD : Nat := 1000000000

/-- Fee tier threshold 3 (`TIER_3_THRESHOLD`): 10 tokens. -/
def TIER_3_THRESHOLD : Nat := 10000000000

/-- Tier 1 fee rate in basis points: 1%. -/
def TIER_1_FEE_BPS : Nat := 100

/-- Tier 2 fee rate in basis points: 0.5%. -/
def TIER_2_FEE_BPS : Nat := 50

/-- Tier 3 fee rate in basis points: 0.25%. -/
def TIER_3_FEE_BPS : Nat := 25

/-- Tier 4 fee rate in basis points: 0.1% (at or over tier 3 threshold). -/
def TIER_4_FEE_BPS : Nat := 10

/-- Loyalty threshold for Bronze: 10 transfers. -/
def LOYALTY_BRONZE : Nat := 10

/-- Loyalty threshold for Silver: 50 transfers. -/
def LOYALTY_SILVER : Nat := 50

/-- Loyalty threshold for Gold: 100 transfers. -/
def LOYALTY_GOLD : Nat := 100

/-- Largest value representable in an unsigned 64-bit integer. -/
def u64max : Nat := 2 ^ 64 - 1

/-- Rust `u64::saturating_add`: addition capped at `u64max`. -/
def satAdd64 (a b : Nat) : Nat := min (a + b) u64max

/-- Rust `u128::checked_mul`: `none` exactly when the product overflows. -/
def checked_mul128 (a b : Nat) : Option Nat :=
  if a * b < 2 ^ 128 then some (a * b) else none

/-- Rust `u128::checked_div`: `none` exactly when the divisor is zero. -/
def checked_div128 (a b : Nat) : Option Nat :=
  if b = 0 then none else some (a / b)

/-- Rust `as u64` narrowing cast from `u128`: truncation modulo `2 ^ 64`. -/
def as_u64 (a : Nat) : Nat := a % 2 ^ 64

/-- The `LoyaltyTier` enum of the source. -/
inductive LoyaltyTier
  | None
  | Bronze
  | Silver
  | Gold
deriving DecidableEq, Repr

/-- The `ErrorCode` enum of the source. -/
inductive ErrorCode
  | HookPaused
  | UserBlacklisted
  | InvalidFeeConfig
  | ArithmeticOverflow
deriving DecidableEq, Repr

/-- Source `calculate_fee_tier` (lib.rs lines 159-169): base fee rate in
basis points as a step function of the transfer amount, with strict `<`
comparisons against the three ascending thresholds. -/
def calculate_fee_tier (amount : Nat) : Nat :=
  if amount < TIER_1_THRESHOLD then TIER_1_FEE_BPS
  else if amount < TIER_2_THRESHOLD then TIER_2_FEE_BPS
  else if amount < TIER_3_THRESHOLD then TIER_3_FEE_BPS
  else TIER_4_FEE_BPS

/-- Source `get_loyalty_tier` (lib.rs lines 172-182): loyalty tier from the
lifetime transfer count, checking Gold, then Silver, then Bronze with `>=`. -/
def get_loyalty_tier (transfer_count : Nat) : LoyaltyTier :=
  if transfer_count ≥ LOYALTY_GOLD then LoyaltyTier.Gold
  else if transfer_count ≥ LOYALTY_SILVER then LoyaltyTier.Silver
  else if transfer_count ≥ LOYALTY_BRONZE then LoyaltyTier.Bronze
  else LoyaltyTier.None

/-- The `match loyalty_tier` arm of `transfer_hook` (lib.rs lines 86-91):
discount in basis points for each loyalty tier. -/
def loyalty_discount_bps : LoyaltyTier → Nat
  | LoyaltyTier.Bronze => 10
  | LoyaltyTier.Silver => 25
  | LoyaltyTier.Gold => 50
  | LoyaltyTier.None => 0

/-- The widened fixed-point pattern used twice in `transfer_hook`
(lib.rs lines 78-82 and 94-98): widen amount to 128 bits, `checked_mul` by a
bps factor, `checked_div` by 10000, narrow the quotient back to 64 bits.
`none` means one of the source's `unwrap` calls would panic. -/
def widened_bps_fee (amount bps : Nat) : Option Nat :=
  ((checked_mul128 amount bps).bind (fun x => checked_div128 x 10000)).map as_u64

/-- The `fee_amount` computation of `transfer_hook` (lib.rs lines 77-82). -/
def fee_amount_checked (amount : Nat) : Option Nat :=
  widened_bps_fee amount (calculate_fee_tier amount)

/-- The discount amount inside `saturating_sub` (lib.rs lines 94-98),
computed from the pre-update transfer count. -/
def discount_checked (amount transfer_count : Nat) : Option Nat :=
  widened_bps_fee amount (loyalty_discount_bps (get_loyalty_tier transfer_count))

/-- The `final_fee` computation (lib.rs lines 93-99): base fee with the
loyalty discount removed by `u64` saturating subtraction. -/
def final_fee_checked (amount transfer_count : Nat) : Option Nat :=
  (fee_amount_checked amount).bind (fun f =>
    (discount_checked amount transfer_count).map (fun d => f - d))

/-- The `HookConfig` account of the source. Pubkeys are modelled as `Nat`. -/
structure HookConfig where
  authority : Nat
  fee_collector : Nat
  is_paused : Bool
  total_transfers : Nat
  total_volume : Nat
  total_fees_collected : Nat
deriving DecidableEq, Repr

/-- The `UserState` account of the source. Pubkeys are modelled as `Nat`. -/
structure UserState where
  owner : Nat
  transfer_count : Nat
  total_volume : Nat
  first_transfer_timestamp : Int
  last_transfer_timestamp : Int
  is_blacklisted : Bool
deriving DecidableEq, Repr

/-- Source `initialize` (lib.rs lines 27-44): fresh config with the caller
as authority, the given fee collector, unpaused, all counters zero. Named
`initialize_config` here because `initialize` is reserved in Lean. -/
def initialize_config (authority_key fee_collector : Nat) : HookConfig :=
  { authority := authority_key
    fee_collector := fee_collector
    is_paused := false
    total_transfers := 0
    total_volume := 0
    total_fees_collected := 0 }

/-- Source `transfer_hook` (lib.rs lines 55-121). The result carries the
outcome together with the final contents of both accounts: on a rejection
the source returns before mutating anything, so the input records are
returned unchanged; `none` models a panic of one of the `unwrap` calls. -/
def transfer_hook (config : HookConfig) (user_state : UserState)
    (owner_key : Nat) (now : Int) (amount : Nat) :
    Option (Except ErrorCode Unit × HookConfig × UserState) :=
  if config.is_paused then
    some (Except.error ErrorCode.HookPaused, config, user_state)
  else if user_state.is_blacklisted then
    some (Except.error ErrorCode.UserBlacklisted, config, user_state)
  else
    let us0 :=
      if user_state.transfer_count = 0 then
        { user_state with owner := owner_key, first_transfer_timestamp := now }
      else user_state
    match fee_amount_checked amount, discount_checked amount us0.transfer_count with
    | some fee_amount, some discount_amount =>
      let final_fee := fee_amount - discount_amount
      let us1 :=
        { us0 with
            transfer_count := satAdd64 us0.transfer_count 1
            total_volume := satAdd64 us0.total_volume amount
            last_transfer_timestamp := now }
      let config1 :=
        { config with
            total_transfers := satAdd64 config.total_transfers 1
            total_volume := satAdd64 config.total_volume amount
            total_fees_collected := satAdd64 config.total_fees_collected final_fee }
      some (Except.ok (), config1, us1)
    | _, _ => none

/-- Source `set_pause` (lib.rs lines 124-130). -/
def set_pause (config : HookConfig) (paused : Bool) : HookConfig :=
  { config with is_paused := paused }

/-- Source `set_blacklist` (lib.rs lines 133-143). -/
def set_blacklist (user_state : UserState) (blacklisted : Bool) : UserState :=
  { user_state with is_blacklisted := blacklisted }

/-- Source `update_fee_collector` (lib.rs lines 146-155). -/
def update_fee_collector (config : HookConfig) (new_collector : Nat) : HookConfig :=
  { config with fee_collector := new_collector }

/-! Helper lemmas shared by the claim theorems. -/

/-- The base fee rate never exceeds 100 basis points. -/
theorem calculate_fee_tier_le_100 (amount : Nat) : calculate_fee_tier amount ≤ 100 := by
  simp only [calculate_fee_tier, TIER_1_FEE_BPS, TIER_2_FEE_BPS, TIER_3_FEE_BPS,
    TIER_4_FEE_BPS]
  split_ifs <;> omega

/-- The loyalty discount never exceeds 50 basis points. -/
theorem loyalty_discount_bps_le_50 (t : LoyaltyTier) : loyalty_discount_bps t ≤ 50 := by
  cases t <;> simp [loyalty_discount_bps]

/-- The loyalty discount as a direct step function of the transfer count. -/
theorem loyalty_discount_of_count (c : Nat) :
    loyalty_discount_bps (get_loyalty_tier c) =
      if 100 ≤ c then 50 else if 50 ≤ c then 25 else if 10 ≤ c then 10 else 0 := by
  simp only [get_loyalty_tier, LOYALTY_GOLD, LOYALTY_SILVER, LOYALTY_BRONZE, ge_iff_le]
  split_ifs <;> rfl

/-- One step of the widened fixed-point pattern never panics and never
truncates for a 64-bit amount and a bps factor of at most 100. -/
theorem checked_pieces (amount bps : Nat) (h : amount < 2 ^ 64) (hb : bps ≤ 100) :
    checked_mul128 amount bps = some (amount * bps) ∧
    checked_div128 (amount * bps) 10000 = some (amount * bps / 10000) ∧
    amount * bps / 10000 < 2 ^ 64 ∧
    as_u64 (amount * bps / 10000) = amount * bps / 10000 := by
  have hx : amount * bps ≤ amount * 10000 := Nat.mul_le_mul (Nat.le_refl amount) (by omega)
  have h100 : amount * bps ≤ amount * 100 := Nat.mul_le_mul (Nat.le_refl amount) hb
  have hmul : amount * bps < 2 ^ 128 := by omega
  have hq : amount * bps / 10000 < 2 ^ 64 := by omega
  refine ⟨?_, ?_, hq, ?_⟩
  · unfold checked_mul128
    rw [if_pos hmul]
  · unfold checked_div128
    rw [if_neg (by omega : ¬(10000 = 0))]
  · unfold as_u64
    exact Nat.mod_eq_of_lt hq

/-- Closed form of `widened_bps_fee` for 64-bit amounts and small factors. -/
theorem widened_bps_fee_eq (amount bps : Nat) (h : amount < 2 ^ 64) (hb : bps ≤ 100) :
    widened_bps_fee amount bps = some (amount * bps / 10000) := by
  obtain ⟨h1, h2, -, h4⟩ := checked_pieces amount bps h hb
  simp [widened_bps_fee, h1, h2, h4]

/-- Closed form of the base fee for 64-bit amounts. -/
theorem fee_amount_checked_eq (amount : Nat) (h : amount < 2 ^ 64) :
    fee_amount_checked amount = some (amount * calculate_fee_tier amount / 10000) :=
  widened_bps_fee_eq amount _ h (calculate_fee_tier_le_100 amount)

/-- Closed form of the discount amount for 64-bit amounts. -/
theorem discount_checked_eq (amount transfer_count : Nat) (h : amount < 2 ^ 64) :
    discount_checked amount transfer_count =
      some (amount * loyalty_discount_bps (get_loyalty_tier transfer_count) / 10000) :=
  widened_bps_fee_eq amount _ h
    (le_trans (loyalty_discount_bps_le_50 _) (by omega))

/-- Closed form of the final fee for 64-bit amounts. -/
theorem final_fee_checked_eq (amount transfer_count : Nat) (h : amount < 2 ^ 64) :
    final_fee_checked amount transfer_count =
      some (amount * calculate_fee_tier amount / 10000 -
        amount * loyalty_discount_bps (get_loyalty_tier transfer_count) / 10000) := by
  simp [final_fee_checked, fee_amount_checked_eq amount h,
    discount_checked_eq amount transfer_count h]

/-- A bps fraction of the amount never exceeds the amount itself. -/
theorem bps_fee_le_amount (amount bps : Nat) (hb : bps ≤ 10000) :
    amount * bps / 10000 ≤ amount := by
  have hx : amount * bps ≤ amount * 10000 := Nat.mul_le_mul (Nat.le_refl amount) hb
  omega

/-- Saturating addition never shrinks a value that is in 64-bit range. -/
theorem le_satAdd64 (a b : Nat) (h : a ≤ u64max) : a ≤ satAdd64 a b := by
  simp only [satAdd64, u64max] at *
  omega

/-- Saturating addition never leaves the 64-bit range. -/
theorem satAdd64_le_max (a b : Nat) : satAdd64 a b ≤ u64max := by
  simp only [satAdd64, u64max]
  omega

/-- A paused config makes `transfer_hook` reject with `HookPaused` and
return both records untouched. -/
theorem transfer_hook_paused (config : HookConfig) (us : UserState)
    (k : Nat) (now : Int) (amount : Nat) (hp : config.is_paused = true) :
    transfer_hook config us k now amount =
      some (Except.error ErrorCode.HookPaused, config, us) := by
  simp [transfer_hook, hp]

/-- A blacklisted sender makes an unpaused `transfer_hook` reject with
`UserBlacklisted` and return both records untouched. -/
theorem transfer_hook_blacklisted (config : HookConfig) (us : UserState)
    (k : Nat) (now : Int) (amount : Nat)
    (hp : config.is_paused = false) (hbl : us.is_blacklisted = true) :
    transfer_hook config us k now amount =
      some (Except.error ErrorCode.UserBlacklisted, config, us) := by
  simp [transfer_hook, hp, hbl]

/-- The accepted path of `transfer_hook` in closed form: with the config
unpaused, the sender not blacklisted, and a 64-bit amount, the hook accepts
and performs exactly the source's record updates. -/
theorem transfer_hook_ok (config : HookConfig) (us : UserState)
    (k : Nat) (now : Int) (amount : Nat)
    (hp : config.is_paused = false) (hbl : us.is_blacklisted = false)
    (ha : amount < 2 ^ 64) :
    transfer_hook config us k now amount =
      some (Except.ok (),
        { config with
            total_transfers := satAdd64 config.total_transfers 1
            total_volume := satAdd64 config.total_volume amount
            total_fees_collected := satAdd64 config.total_fees_collected
              (amount * calculate_fee_tier amount / 10000 -
                amount * loyalty_discount_bps (get_loyalty_tier us.transfer_count) / 10000) },
        { owner := if us.transfer_count = 0 then k else us.owner
          transfer_count := satAdd64 us.transfer_count 1
          total_volume := satAdd64 us.total_volume amount
          first_transfer_timestamp :=
            if us.transfer_count = 0 then now else us.first_transfer_timestamp
          last_transfer_timestamp := now
          is_blacklisted := us.is_blacklisted }) := by
  by_cases h0 : us.transfer_count = 0 <;>
    simp [transfer_hook, hp, hbl, h0, fee_amount_checked_eq amount ha,
      discount_checked_eq amount _ ha]

/-- Every result of `transfer_hook` is either a rejection that returns both
records unchanged, or an acceptance performing exactly the source's record
updates with the fee derived from the pre-update transfer count. -/
theorem transfer_hook_cases (config : HookConfig) (us : UserState)
    (k : Nat) (now : Int) (amount : Nat) (r : Except ErrorCode Unit)
    (cfg1 : HookConfig) (us1 : UserState)
    (hstep : transfer_hook config us k now amount = some (r, cfg1, us1)) :
    (cfg1 = config ∧ us1 = us) ∨
    ∃ fee_amount discount_amount,
      fee_amount_checked amount = some fee_amount ∧
      discount_checked amount us.transfer_count = some discount_amount ∧
      r = Except.ok () ∧
      cfg1 = { config with
        total_transfers := satAdd64 config.total_transfers 1
        total_volume := satAdd64 config.total_volume amount
        total_fees_collected :=
          satAdd64 config.total_fees_collected (fee_amount - discount_amount) } ∧
      us1 = { owner := if us.transfer_count = 0 then k else us.owner
              transfer_count := satAdd64 us.transfer_count 1
              total_volume := satAdd64 us.total_volume amount
              first_transfer_timestamp :=
                if us.transfer_count = 0 then now else us.first_transfer_timestamp
              last_transfer_timestamp := now
              is_blacklisted := us.is_blacklisted } := by
  by_cases hp : config.is_paused = true
  · rw [transfer_hook_paused config us k now amount hp] at hstep
    simp only [Option.some.injEq, Prod.mk.injEq] at hstep
    exact Or.inl ⟨hstep.2.1.symm, hstep.2.2.symm⟩
  · have hpf : config.is_paused = false := by revert hp; cases config.is_paused <;> simp
    by_cases hbl : us.is_blacklisted = true
    · rw [transfer_hook_blacklisted config us k now amount hpf hbl] at hstep
      simp only [Option.some.injEq, Prod.mk.injEq] at hstep
      exact Or.inl ⟨hstep.2.1.symm, hstep.2.2.symm⟩
    · have hblf : us.is_blacklisted = false := by
        revert hbl; cases us.is_blacklisted <;> simp
      right
      by_cases h0 : us.transfer_count = 0 <;>
        simp only [transfer_hook, hpf, hblf, h0, Bool.false_eq_true, if_false, if_true,
          ite_true, ite_false, reduceIte] at hstep <;>
        rcases hfee : fee_amount_checked amount with _ | f <;>
          rcases hdis : discount_checked amount us.transfer_count with _ | d <;>
          simp_all

/-! Claim theorems. -/

/-- C1: for every unsigned 64-bit transfer amount and every pre-transfer
transfer count, the fee engine of `transfer_hook` yields
`0 ≤ finalFee ≤ baseFee ≤ amount`, where `baseFee` is
`floor(amount * calculate_fee_tier amount / 10000)`: the fee is never
negative after the loyalty discount and never exceeds the pre-discount
base fee or the amount. -/
theorem C1_fee_never_exceeds_amount (amount transfer_count : Nat)
    (h : amount < 2 ^ 64) :
    ∃ baseFee finalFee,
      fee_amount_checked amount = some baseFee ∧
      final_fee_checked amount transfer_count = some finalFee ∧
      baseFee = amount * calculate_fee_tier amount / 10000 ∧
      0 ≤ finalFee ∧ finalFee ≤ baseFee ∧ baseFee ≤ amount := by
  refine ⟨_, _, fee_amount_checked_eq amount h,
    final_fee_checked_eq amount transfer_count h, rfl, Nat.zero_le _, Nat.sub_le _ _, ?_⟩
  exact bps_fee_le_amount amount _ (le_trans (calculate_fee_tier_le_100 amount) (by omega))

/-- Witness for C1 at `amount = 50000000`, `transfer_count = 0`. -/
theorem C1_fee_never_exceeds_amount_witness :
    (50000000 : Nat) < 2 ^ 64 ∧
    ∃ baseFee finalFee,
      fee_amount_checked 50000000 = some baseFee ∧
      final_fee_checked 50000000 0 = some finalFee ∧
      baseFee = 50000000 * calculate_fee_tier 50000000 / 10000 ∧
      0 ≤ finalFee ∧ finalFee ≤ baseFee ∧ baseFee ≤ 50000000 :=
  ⟨by decide, C1_fee_never_exceeds_amount 50000000 0 (by decide)⟩

/-- C2 counterexample: at `amount = 2000000000` the base fee is 5,000,000
(rate 25 bps, because 2000000000 is at or above `TIER_2_THRESHOLD`), not the
10,000,000 at 50 bps the claim states. -/
theorem C2_scenario_b_counterexample :
    fee_amount_checked 2000000000 = some 5000000 ∧
    ¬ fee_amount_checked 2000000000 = some 10000000 :=
  ⟨rfl, by decide⟩

/-- C2 amended: for a sender with pre-transfer `transfer_count = 100`
(Gold tier, 50 bps discount) transferring `amount = 2000000000` (Tier 3
range, 25 bps base), the fee engine produces a base fee of 5,000,000, a
discount of 10,000,000, and a final fee of 0. -/
theorem C2_scenario_b_amended :
    calculate_fee_tier 2000000000 = TIER_3_FEE_BPS ∧
    get_loyalty_tier 100 = LoyaltyTier.Gold ∧
    fee_amount_checked 2000000000 = some 5000000 ∧
    discount_checked 2000000000 100 = some 10000000 ∧
    final_fee_checked 2000000000 100 = some 0 :=
  ⟨rfl, rfl, rfl, rfl, rfl⟩

/-- C3: when the config is paused, or unpaused with a blacklisted sender,
`transfer_hook` rejects — with `HookPaused` taking precedence because the
pause check runs first — and returns both records exactly unchanged. -/
theorem C3_rejection_total_rollback (config : HookConfig) (us : UserState)
    (k : Nat) (now : Int) (amount : Nat)
    (h : config.is_paused = true ∨ us.is_blacklisted = true) :
    transfer_hook config us k now amount =
      some (Except.error
        (if config.is_paused then ErrorCode.HookPaused else ErrorCode.UserBlacklisted),
        config, us) := by
  by_cases hp : config.is_paused = true
  · rw [transfer_hook_paused config us k now amount hp, hp]
    simp
  · have hpf : config.is_paused = false := by revert hp; cases config.is_paused <;> simp
    have hbl : us.is_blacklisted = true := by
      rcases h with h | h
      · exact absurd h hp
      · exact h
    rw [transfer_hook_blacklisted config us k now amount hpf hbl, hpf]
    simp

/-- Witness for C3: a paused config with a blacklisted sender is rejected
with `HookPaused`, both records returned untouched. -/
theorem C3_rejection_total_rollback_witness :
    transfer_hook ⟨1, 2, true, 3, 4, 5⟩ ⟨6, 7, 8, 9, 10, true⟩ 11 12 13 =
      some (Except.error ErrorCode.HookPaused,
        (⟨1, 2, true, 3, 4, 5⟩ : HookConfig), (⟨6, 7, 8, 9, 10, true⟩ : UserState)) := by
  have h := C3_rejection_total_rollback ⟨1, 2, true, 3, 4, 5⟩ ⟨6, 7, 8, 9, 10, true⟩
    11 12 13 (Or.inl rfl)
  simpa using h

/-- C4: `calculate_fee_tier` is a four-step table returning exactly one of
the four descending rates, with strict `<` against the thresholds so that
an amount equal to a threshold falls into the next lower-fee tier, and the
rate is non-increasing in the amount. -/
theorem C4_fee_tier_table :
    (∀ amount : Nat,
      calculate_fee_tier amount = TIER_1_FEE_BPS ∨
      calculate_fee_tier amount = TIER_2_FEE_BPS ∨
      calculate_fee_tier amount = TIER_3_FEE_BPS ∨
      calculate_fee_tier amount = TIER_4_FEE_BPS) ∧
    calculate_fee_tier (TIER_1_THRESHOLD - 1) = TIER_1_FEE_BPS ∧
    calculate_fee_tier TIER_1_THRESHOLD = TIER_2_FEE_BPS ∧
    calculate_fee_tier (TIER_2_THRESHOLD - 1) = TIER_2_FEE_BPS ∧
    calculate_fee_tier TIER_2_THRESHOLD = TIER_3_FEE_BPS ∧
    calculate_fee_tier (TIER_3_THRESHOLD - 1) = TIER_3_FEE_BPS ∧
    calculate_fee_tier TIER_3_THRESHOLD = TIER_4_FEE_BPS ∧
    (∀ a b : Nat, a ≤ b → calculate_fee_tier b ≤ calculate_fee_tier a) := by
  refine ⟨?_, rfl, rfl, rfl, rfl, rfl, rfl, ?_⟩
  · intro amount
    simp only [calculate_fee_tier]
    split_ifs <;> simp
  · intro a b hab
    simp only [calculate_fee_tier, TIER_1_THRESHOLD, TIER_2_THRESHOLD, TIER_3_THRESHOLD,
      TIER_1_FEE_BPS, TIER_2_FEE_BPS, TIER_3_FEE_BPS, TIER_4_FEE_BPS]
    split_ifs <;> omega

/-- Witness for C4: the rate at a larger amount is at most the rate at a
smaller one. -/
theorem C4_fee_tier_table_witness :
    calculate_fee_tier 2000000000 ≤ calculate_fee_tier 50 :=
  C4_fee_tier_table.2.2.2.2.2.2.2 50 2000000000 (by decide)

/-- C5: `get_loyalty_tier` checks Gold, then Silver, then Bronze with
`count ≥ threshold`, so a count equal to a threshold qualifies for that
higher tier, the highest qualifying tier wins, and the resulting discount
is non-decreasing in the transfer count. -/
theorem C5_loyalty_tier_table :
    (∀ c : Nat, LOYALTY_GOLD ≤ c → get_loyalty_tier c = LoyaltyTier.Gold) ∧
    (∀ c : Nat, LOYALTY_SILVER ≤ c → c < LOYALTY_GOLD →
      get_loyalty_tier c = LoyaltyTier.Silver) ∧
    (∀ c : Nat, LOYALTY_BRONZE ≤ c → c < LOYALTY_SILVER →
      get_loyalty_tier c = LoyaltyTier.Bronze) ∧
    (∀ c : Nat, c < LOYALTY_BRONZE → get_loyalty_tier c = LoyaltyTier.None) ∧
    get_loyalty_tier LOYALTY_GOLD = LoyaltyTier.Gold ∧
    get_loyalty_tier LOYALTY_SILVER = LoyaltyTier.Silver ∧
    get_loyalty_tier LOYALTY_BRONZE = LoyaltyTier.Bronze ∧
    (∀ c d : Nat, c ≤ d →
      loyalty_discount_bps (get_loyalty_tier c) ≤
        loyalty_discount_bps (get_loyalty_tier d)) := by
  have step : ∀ c : Nat, get_loyalty_tier c =
      if 100 ≤ c then LoyaltyTier.Gold else if 50 ≤ c then LoyaltyTier.Silver
      else if 10 ≤ c then LoyaltyTier.Bronze else LoyaltyTier.None := by
    intro c
    simp [get_loyalty_tier, LOYALTY_GOLD, LOYALTY_SILVER, LOYALTY_BRONZE, ge_iff_le]
  refine ⟨?_, ?_, ?_, ?_, rfl, rfl, rfl, ?_⟩
  · intro c hc
    rw [step]
    simp only [LOYALTY_GOLD] at hc
    rw [if_pos hc]
  · intro c hc1 hc2
    rw [step]
    simp only [LOYALTY_SILVER] at hc1
    simp only [LOYALTY_GOLD] at hc2
    split_ifs <;> first | rfl | omega
  · intro c hc1 hc2
    rw [step]
    simp only [LOYALTY_BRONZE] at hc1
    simp only [LOYALTY_SILVER] at hc2
    split_ifs <;> first | rfl | omega
  · intro c hc
    rw [step]
    simp only [LOYALTY_BRONZE] at hc
    split_ifs <;> first | rfl | omega
  · intro c d hcd
    rw [loyalty_discount_of_count, loyalty_discount_of_count]
    split_ifs <;> omega

/-- Witness for C5: boundary count 100 is Gold, and the discount at count
10 is at most the discount at count 50. -/
theorem C5_loyalty_tier_table_witness :
    get_loyalty_tier 100 = LoyaltyTier.Gold ∧
    loyalty_discount_bps (get_loyalty_tier 10) ≤ loyalty_discount_bps (get_loyalty_tier 50) :=
  ⟨C5_loyalty_tier_table.1 100 (by decide),
    C5_loyalty_tier_table.2.2.2.2.2.2.2 10 50 (by decide)⟩

/-- C6: on every accepted transfer the final fee is computed from the
sender's transfer count as it was before this transfer (the loyalty tier is
read before `transfer_count` is incremented), and the count then increases
by one. -/
theorem C6_fee_from_pre_update_count (config : HookConfig) (us : UserState)
    (k : Nat) (now : Int) (amount : Nat)
    (hp : config.is_paused = false) (hbl : us.is_blacklisted = false)
    (ha : amount < 2 ^ 64) :
    ∃ f cfg1 us1,
      final_fee_checked amount us.transfer_count = some f ∧
      transfer_hook config us k now amount = some (Except.ok (), cfg1, us1) ∧
      cfg1.total_fees_collected = satAdd64 config.total_fees_collected f ∧
      us1.transfer_count = satAdd64 us.transfer_count 1 :=
  ⟨_, _, _, final_fee_checked_eq amount us.transfer_count ha,
    transfer_hook_ok config us k now amount hp hbl ha, rfl, rfl⟩

/-- Witness for C6: a sender with pre-transfer count 5 pays the fee of
count 5 and ends with count 6. -/
theorem C6_fee_from_pre_update_count_witness :
    ∃ f cfg1 us1,
      final_fee_checked 50000000 5 = some f ∧
      transfer_hook ⟨1, 2, false, 0, 0, 0⟩ ⟨3, 5, 100, 4, 4, false⟩ 9 8 50000000 =
        some (Except.ok (), cfg1, us1) ∧
      cfg1.total_fees_collected = satAdd64 0 f ∧
      us1.transfer_count = satAdd64 5 1 :=
  C6_fee_from_pre_update_count ⟨1, 2, false, 0, 0, 0⟩ ⟨3, 5, 100, 4, 4, false⟩
    9 8 50000000 rfl rfl (by decide)

/-- C7: across all operations the five statistics counters never decrease
and additions saturate at the 64-bit maximum instead of wrapping:
`initialize` starts them at zero, `transfer_hook` only saturating-adds, and
the three admin operations leave every counter unchanged. -/
theorem C7_counters_monotone_saturating :
    (∀ a fc : Nat,
      (initialize_config a fc).total_transfers = 0 ∧
      (initialize_config a fc).total_volume = 0 ∧
      (initialize_config a fc).total_fees_collected = 0) ∧
    (∀ (config : HookConfig) (us : UserState) (k : Nat) (now : Int) (amount : Nat)
        (r : Except ErrorCode Unit) (cfg1 : HookConfig) (us1 : UserState),
      transfer_hook config us k now amount = some (r, cfg1, us1) →
      config.total_transfers ≤ u64max → config.total_volume ≤ u64max →
      config.total_fees_collected ≤ u64max → us.transfer_count ≤ u64max →
      us.total_volume ≤ u64max →
      (config.total_transfers ≤ cfg1.total_transfers ∧
        config.total_volume ≤ cfg1.total_volume ∧
        config.total_fees_collected ≤ cfg1.total_fees_collected ∧
        us.transfer_count ≤ us1.transfer_count ∧
        us.total_volume ≤ us1.total_volume ∧
        cfg1.total_transfers ≤ u64max ∧ cfg1.total_volume ≤ u64max ∧
        cfg1.total_fees_collected ≤ u64max ∧ us1.transfer_count ≤ u64max ∧
        us1.total_volume ≤ u64max)) ∧
    (∀ (config : HookConfig) (p : Bool),
      (set_pause config p).total_transfers = config.total_transfers ∧
      (set_pause config p).total_volume = config.total_volume ∧
      (set_pause config p).total_fees_collected = config.total_fees_collected) ∧
    (∀ (us : UserState) (b : Bool),
      (set_blacklist us b).transfer_count = us.transfer_count ∧
      (set_blacklist us b).total_volume = us.total_volume) ∧
    (∀ (config : HookConfig) (c : Nat),
      (update_fee_collector config c).total_transfers = config.total_transfers ∧
      (update_fee_collector config c).total_volume = config.total_volume ∧
      (update_fee_collector config c).total_fees_collected =
        config.total_fees_collected) := by
  refine ⟨fun a fc => ⟨rfl, rfl, rfl⟩, ?_, fun config p => ⟨rfl, rfl, rfl⟩,
    fun us b => ⟨rfl, rfl⟩, fun config c => ⟨rfl, rfl, rfl⟩⟩
  intro config us k now amount r cfg1 us1 hstep h1 h2 h3 h4 h5
  rcases transfer_hook_cases config us k now amount r cfg1 us1 hstep with
    ⟨rfl, rfl⟩ | ⟨f, d, -, -, -, rfl, rfl⟩
  · exact ⟨le_refl _, le_refl _, le_refl _, le_refl _, le_refl _, h1, h2, h3, h4, h5⟩
  · exact ⟨le_satAdd64 _ _ h1, le_satAdd64 _ _ h2, le_satAdd64 _ _ h3,
      le_satAdd64 _ _ h4, le_satAdd64 _ _ h5,
      satAdd64_le_max _ _, satAdd64_le_max _ _, satAdd64_le_max _ _,
      satAdd64_le_max _ _, satAdd64_le_max _ _⟩

/-- Witness for C7: one concrete accepted transfer grows every counter. -/
theorem C7_counters_monotone_saturating_witness :
    (⟨1, 2, false, 3, 4, 5⟩ : HookConfig).total_transfers ≤
        (⟨1, 2, false, 4, 104, 6⟩ : HookConfig).total_transfers ∧
    (⟨1, 2, false, 3, 4, 5⟩ : HookConfig).total_volume ≤
        (⟨1, 2, false, 4, 104, 6⟩ : HookConfig).total_volume ∧
    (⟨1, 2, false, 3, 4, 5⟩ : HookConfig).total_fees_collected ≤
        (⟨1, 2, false, 4, 104, 6⟩ : HookConfig).total_fees_collected ∧
    (⟨6, 7, 8, 9, 10, false⟩ : UserState).transfer_count ≤
        (⟨6, 8, 108, 9, 12, false⟩ : UserState).transfer_count ∧
    (⟨6, 7, 8, 9, 10, false⟩ : UserState).total_volume ≤
        (⟨6, 8, 108, 9, 12, false⟩ : UserState).total_volume ∧
    (⟨1, 2, false, 4, 104, 6⟩ : HookConfig).total_transfers ≤ u64max ∧
    (⟨1, 2, false, 4, 104, 6⟩ : HookConfig).total_volume ≤ u64max ∧
    (⟨1, 2, false, 4, 104, 6⟩ : HookConfig).total_fees_collected ≤ u64max ∧
    (⟨6, 8, 108, 9, 12, false⟩ : UserState).transfer_count ≤ u64max ∧
    (⟨6, 8, 108, 9, 12, false⟩ : UserState).total_volume ≤ u64max :=
  C7_counters_monotone_saturating.2.1 ⟨1, 2, false, 3, 4, 5⟩ ⟨6, 7, 8, 9, 10, false⟩
    11 12 100 (Except.ok ()) ⟨1, 2, false, 4, 104, 6⟩ ⟨6, 8, 108, 9, 12, false⟩
    rfl (by decide) (by decide) (by decide) (by decide) (by decide)

/-- C8: identity fields are immutable once set: `transfer_hook` keeps
`owner` whenever the pre-transfer count is nonzero, every operation keeps
`authority`, and the admin blacklist operation keeps `owner`. -/
theorem C8_identity_fields_immutable :
    (∀ (config : HookConfig) (us : UserState) (k : Nat) (now : Int) (amount : Nat)
        (r : Except ErrorCode Unit) (cfg1 : HookConfig) (us1 : UserState),
      us.transfer_count ≠ 0 →
      transfer_hook config us k now amount = some (r, cfg1, us1) →
      us1.owner = us.owner) ∧
    (∀ (config : HookConfig) (us : UserState) (k : Nat) (now : Int) (amount : Nat)
        (r : Except ErrorCode Unit) (cfg1 : HookConfig) (us1 : UserState),
      transfer_hook config us k now amount = some (r, cfg1, us1) →
      cfg1.authority = config.authority) ∧
    (∀ (us : UserState) (b : Bool), (set_blacklist us b).owner = us.owner) ∧
    (∀ (config : HookConfig) (p : Bool), (set_pause config p).authority = config.authority) ∧
    (∀ (config : HookConfig) (c : Nat),
      (update_fee_collector config c).authority = config.authority) ∧
    (∀ a fc : Nat, (initialize_config a fc).authority = a) := by
  refine ⟨?_, ?_, fun us b => rfl, fun config p => rfl, fun config c => rfl,
    fun a fc => rfl⟩
  · intro config us k now amount r cfg1 us1 h0 hstep
    rcases transfer_hook_cases config us k now amount r cfg1 us1 hstep with
      ⟨rfl, rfl⟩ | ⟨f, d, -, -, -, rfl, rfl⟩
    · rfl
    · simp [h0]
  · intro config us k now amount r cfg1 us1 hstep
    rcases transfer_hook_cases config us k now amount r cfg1 us1 hstep with
      ⟨rfl, rfl⟩ | ⟨f, d, -, -, -, rfl, rfl⟩ <;> rfl

/-- Witness for C8: a transfer by a sender with count 7 keeps the owner. -/
theorem C8_identity_fields_immutable_witness :
    (⟨6, 8, 108, 9, 12, false⟩ : UserState).owner =
      (⟨6, 7, 8, 9, 10, false⟩ : UserState).owner :=
  C8_identity_fields_immutable.1 ⟨1, 2, false, 3, 4, 5⟩ ⟨6, 7, 8, 9, 10, false⟩
    11 12 100 (Except.ok ()) ⟨1, 2, false, 4, 104, 6⟩ ⟨6, 8, 108, 9, 12, false⟩
    (by decide) rfl

/-- C9: the fee arithmetic of `transfer_hook` is panic-free and lossless
for every unsigned 64-bit amount: both `checked_mul` calls and both
`checked_div` calls return `some`, and the narrowing casts of the
quotients back to 64 bits do not truncate. -/
theorem C9_fee_arithmetic_panic_free (amount transfer_count : Nat)
    (h : amount < 2 ^ 64) :
    checked_mul128 amount (calculate_fee_tier amount) =
      some (amount * calculate_fee_tier amount) ∧
    checked_div128 (amount * calculate_fee_tier amount) 10000 =
      some (amount * calculate_fee_tier amount / 10000) ∧
    amount * calculate_fee_tier amount / 10000 < 2 ^ 64 ∧
    as_u64 (amount * calculate_fee_tier amount / 10000) =
      amount * calculate_fee_tier amount / 10000 ∧
    checked_mul128 amount (loyalty_discount_bps (get_loyalty_tier transfer_count)) =
      some (amount * loyalty_discount_bps (get_loyalty_tier transfer_count)) ∧
    checked_div128 (amount * loyalty_discount_bps (get_loyalty_tier transfer_count))
        10000 =
      some (amount * loyalty_discount_bps (get_loyalty_tier transfer_count) / 10000) ∧
    amount * loyalty_discount_bps (get_loyalty_tier transfer_count) / 10000 < 2 ^ 64 ∧
    as_u64 (amount * loyalty_discount_bps (get_loyalty_tier transfer_count) / 10000) =
      amount * loyalty_discount_bps (get_loyalty_tier transfer_count) / 10000 ∧
    ∃ f, final_fee_checked amount transfer_count = some f := by
  obtain ⟨a1, a2, a3, a4⟩ := checked_pieces amount (calculate_fee_tier amount) h
    (calculate_fee_tier_le_100 amount)
  obtain ⟨b1, b2, b3, b4⟩ := checked_pieces amount
    (loyalty_discount_bps (get_loyalty_tier transfer_count)) h
    (le_trans (loyalty_discount_bps_le_50 _) (by omega))
  exact ⟨a1, a2, a3, a4, b1, b2, b3, b4, _,
    final_fee_checked_eq amount transfer_count h⟩

/-- Witness for C9 at the largest 64-bit amount and a Gold-tier count. -/
theorem C9_fee_arithmetic_panic_free_witness :
    checked_mul128 18446744073709551615 (calculate_fee_tier 18446744073709551615) =
      some (18446744073709551615 * calculate_fee_tier 18446744073709551615) ∧
    checked_div128 (18446744073709551615 * calculate_fee_tier 18446744073709551615)
        10000 =
      some (18446744073709551615 * calculate_fee_tier 18446744073709551615 / 10000) ∧
    18446744073709551615 * calculate_fee_tier 18446744073709551615 / 10000 < 2 ^ 64 ∧
    as_u64 (18446744073709551615 * calculate_fee_tier 18446744073709551615 / 10000) =
      18446744073709551615 * calculate_fee_tier 18446744073709551615 / 10000 ∧
    checked_mul128 18446744073709551615
        (loyalty_discount_bps (get_loyalty_tier 100)) =
      some (18446744073709551615 * loyalty_discount_bps (get_loyalty_tier 100)) ∧
    checked_div128
        (18446744073709551615 * loyalty_discount_bps (get_loyalty_tier 100)) 10000 =
      some (18446744073709551615 * loyalty_discount_bps (get_loyalty_tier 100) / 10000) ∧
    18446744073709551615 * loyalty_discount_bps (get_loyalty_tier 100) / 10000 <
      2 ^ 64 ∧
    as_u64 (18446744073709551615 * loyalty_discount_bps (get_loyalty_tier 100) / 10000) =
      18446744073709551615 * loyalty_discount_bps (get_loyalty_tier 100) / 10000 ∧
    ∃ f, final_fee_checked 18446744073709551615 100 = some f :=
  C9_fee_arithmetic_panic_free 18446744073709551615 100 (by decide)

/-- C10: an accepted transfer of at least `TIER_3_THRESHOLD` by a sender
with pre-transfer count at least `LOYALTY_SILVER` has final fee exactly 0
(10 bps base against a 25 or 50 bps discount), so `total_fees_collected`
is unchanged by the transfer. -/
theorem C10_whale_loyalty_zero_fee (config : HookConfig) (us : UserState)
    (k : Nat) (now : Int) (amount : Nat)
    (hp : config.is_paused = false) (hbl : us.is_blacklisted = false)
    (hamt : TIER_3_THRESHOLD ≤ amount) (ha : amount < 2 ^ 64)
    (hcnt : LOYALTY_SILVER ≤ us.transfer_count)
    (hfees : config.total_fees_collected ≤ u64max) :
    final_fee_checked amount us.transfer_count = some 0 ∧
    ∃ cfg1 us1,
      transfer_hook config us k now amount = some (Except.ok (), cfg1, us1) ∧
      cfg1.total_fees_collected = config.total_fees_collected := by
  have hbase : calculate_fee_tier amount = 10 := by
    simp only [TIER_3_THRESHOLD] at hamt
    simp only [calculate_fee_tier, TIER_1_THRESHOLD, TIER_2_THRESHOLD, TIER_3_THRESHOLD,
      TIER_1_FEE_BPS, TIER_2_FEE_BPS, TIER_3_FEE_BPS, TIER_4_FEE_BPS]
    split_ifs <;> omega
  have hdisc : 25 ≤ loyalty_discount_bps (get_loyalty_tier us.transfer_count) := by
    rw [loyalty_discount_of_count]
    simp only [LOYALTY_SILVER] at hcnt
    split_ifs <;> omega
  have hzero : amount * calculate_fee_tier amount / 10000 -
      amount * loyalty_discount_bps (get_loyalty_tier us.transfer_count) / 10000 = 0 := by
    have hle : amount * calculate_fee_tier amount ≤
        amount * loyalty_discount_bps (get_loyalty_tier us.transfer_count) := by
      rw [hbase]
      exact Nat.mul_le_mul (Nat.le_refl amount) (le_trans (by omega) hdisc)
    have hq : amount * calculate_fee_tier amount / 10000 ≤
        amount * loyalty_discount_bps (get_loyalty_tier us.transfer_count) / 10000 :=
      Nat.div_le_div_right hle
    omega
  refine ⟨?_, ?_⟩
  · rw [final_fee_checked_eq amount us.transfer_count ha, hzero]
  · refine ⟨_, _, transfer_hook_ok config us k now amount hp hbl ha, ?_⟩
    show satAdd64 config.total_fees_collected _ = config.total_fees_collected
    rw [hzero]
    simp only [satAdd64, u64max] at hfees ⊢
    omega

/-- Witness for C10: a 10-token transfer by a Silver sender pays no fee. -/
theorem C10_whale_loyalty_zero_fee_witness :
    final_fee_checked 10000000000 50 = some 0 ∧
    ∃ cfg1 us1,
      transfer_hook ⟨1, 2, false, 3, 4, 5⟩ ⟨6, 50, 8, 9, 10, false⟩ 11 12 10000000000 =
        some (Except.ok (), cfg1, us1) ∧
      cfg1.total_fees_collected = 5 :=
  C10_whale_loyalty_zero_fee ⟨1, 2, false, 3, 4, 5⟩ ⟨6, 50, 8, 9, 10, false⟩
    11 12 10000000000 rfl rfl (by decide) (by decide) (by decide) (by decide)
